import Mathlib

/-!
Shallow embedding of the StreamerPulse chat-analytics core: the
`MetricsAggregator` of the Twitch ingestion worker script, the
alert-arbitration pieces of the `coach-summary` API route, and the
repeated-message short-circuit of `classifyChatTone`.

Modelling conventions:
* JS `number` is modelled as `ℝ` where the source feeds it through `Math.exp`
  (the baseline accumulators and everything downstream of them in the
  aggregator), and as `ℚ` elsewhere; aggregator timestamps are integer epoch
  milliseconds (`ℤ`), route timestamps are `ℚ`.
* JS `Map` objects are insertion-ordered association lists; `Map.set`
  overwrites in place, `Map.delete` during iteration is a filter.
* `Number.isFinite` guards are vacuously true over `ℝ`/`ℚ` and are noted at
  each spot where they are dropped.
* The aggregator's token/emote leaderboards are not modelled: no claim below
  mentions them and they do not feed back into any modelled field.
-/

namespace StreamerPulse

/-! ### coach-summary route: priority weights, cooldown map, alert gating -/

inductive AlertPriority where
  | high
  | medium
  | low
deriving DecidableEq

def priorityWeight : AlertPriority → ℕ
  | .high => 3
  | .medium => 2
  | .low => 1

structure CooldownEntry where
  timestamp : ℚ
  priority : AlertPriority
deriving DecidableEq

/-- The route's module-level `alertCooldowns` map. -/
abbrev CooldownMap := List (String × CooldownEntry)

/-- JS `Map.get`. -/
def mapFind {β : Type} : List (String × β) → String → Option β
  | [], _ => none
  | (k, v) :: rest, a => if k = a then some v else mapFind rest a

/-- JS `Map.set`: overwrite in place when the key exists, else append. -/
def mapSet {β : Type} : List (String × β) → String → β → List (String × β)
  | [], a, b => [(a, b)]
  | (k, v) :: rest, a, b => if k = a then (k, b) :: rest else (k, v) :: mapSet rest a b

def DEFAULT_ALERT_COOLDOWN_MS : ℚ := 30000

def shouldEmitAlert (cooldowns : CooldownMap) (key : String) (timestamp : ℚ)
    (priority : AlertPriority) (cooldownMs : ℚ) : Bool × CooldownMap :=
  let suppressed :=
    match mapFind cooldowns key with
    | some existing =>
      let elapsed := timestamp - existing.timestamp
      decide (elapsed < cooldownMs)
        && decide (priorityWeight priority ≤ priorityWeight existing.priority)
    | none => false
  if suppressed then (false, cooldowns)
  else (true, mapSet cooldowns key ⟨timestamp, priority⟩)

def clamp (value lo hi : ℚ) : ℚ := min (max value lo) hi

/-- Source `computeDynamicCooldown`; `intensity` is `number | null | undefined` and
the JS guard `!intensity || intensity <= 0` is also taken at `0`. -/
def computeDynamicCooldown (baseMs : ℚ) (intensity : Option ℚ) : ℚ :=
  match intensity with
  | none => baseMs
  | some i =>
    if i ≤ 0 then baseMs
    else max (baseMs / (1 + clamp i (1/2) 4)) (baseMs * (3/10))

structure EmittedAlert where
  id : String
  message : String
  tone : String
  priority : AlertPriority
  updatedAt : ℚ
deriving DecidableEq

def calmAlertMessage : String := "All Calm: Chat is steady—no notable shifts yet."

def buildCalmAlert (timestamp : ℚ) : EmittedAlert :=
  { id := "status-all-calm-" ++ toString timestamp
    message := calmAlertMessage
    tone := "neutral"
    priority := .low
    updatedAt := timestamp }

/-- Source `sessionAgeSeconds`: `Infinity` (`⊤`) without a truthy `session.startedAt`. -/
def sessionAgeSeconds (sessionStart : Option ℚ) (latestTimestamp : ℚ) : WithTop ℚ :=
  match sessionStart with
  | some t => if t = 0 then ⊤ else ((max 0 ((latestTimestamp - t) / 1000) : ℚ) : WithTop ℚ)
  | none => ⊤

/-- The tail of `POST`: the idle-calm gate run after the detector cascade and
budget truncation produced `limitedAlerts`. -/
def calmStage (cooldowns : CooldownMap) (limitedAlerts : List EmittedAlert)
    (messageRateValue uniqueChattersValue newcomersValue : ℚ)
    (sessionAge : WithTop ℚ) (latestTimestamp : ℚ) :
    List EmittedAlert × CooldownMap :=
  let shouldEmitCalm :=
    limitedAlerts.isEmpty
      && decide (messageRateValue ≤ 0)
      && decide (uniqueChattersValue ≤ 0)
      && decide (newcomersValue ≤ 0)
      && decide ((90 : WithTop ℚ) < sessionAge)
  if shouldEmitCalm then
    match shouldEmitAlert cooldowns "calm" latestTimestamp .low 60000 with
    | (true, cooldowns') => ([buildCalmAlert latestTimestamp], cooldowns')
    | (false, cooldowns') => (limitedAlerts, cooldowns')
  else (limitedAlerts, cooldowns)

/-- The `toneSummary` object of a `POST` response. -/
structure ToneSummary where
  counts : List (String × ℕ)
  total : ℕ
  recentPositive : ℕ
  recentNegative : ℕ
  recentToxic : ℕ
  ratioPositive : ℚ
  ratioNegative : ℚ
  ratioToxic : ℚ
  latestTone : String
deriving DecidableEq

def emptyToneSummary : ToneSummary :=
  { counts := [], total := 0, recentPositive := 0, recentNegative := 0, recentToxic := 0
    ratioPositive := 0, ratioNegative := 0, ratioToxic := 0, latestTone := "unknown" }

structure CoachMessage where
  id : Option String
  author : String
  text : String
  timestamp : ℚ
deriving DecidableEq

structure CoachResponse where
  alerts : List EmittedAlert
  toneSummary : ToneSummary
deriving DecidableEq

/-- The `POST` dispatch: sort the batch by timestamp, keep the trailing 80, and
short-circuit an empty batch to a single calm alert with an all-zero tone
summary, leaving the cooldown map untouched.  The non-empty path (tone
classification, the detector cascade, dedup/budget and the calm stage) is the
`pipeline` parameter: the claim settled against this definition only concerns
the empty-batch branch, which the source returns from before any of that runs. -/
def coachSummaryPost
    (pipeline : List CoachMessage → CooldownMap → CoachResponse × CooldownMap)
    (cooldowns : CooldownMap) (messages : List CoachMessage) (now : ℚ) :
    CoachResponse × CooldownMap :=
  let ordered := (messages.mergeSort (fun a b => decide (a.timestamp ≤ b.timestamp))).drop
      (messages.length - 80)
  if ordered.isEmpty then
    ({ alerts := [buildCalmAlert now], toneSummary := emptyToneSummary }, cooldowns)
  else pipeline ordered cooldowns

/-! ### chat-tone classification (`src/lib` chat-tone module) -/

inductive ChatTone where
  | hype | supportive | humor | informational | question | constructive
  | critical | sarcastic | toxic | spam | system | unknown
deriving DecidableEq

structure ChatToneResult where
  tone : ChatTone
  confidence : ℚ
  rationale : String
deriving DecidableEq

def jsWhitespace (c : Char) : Bool :=
  c = ' ' || c = '\t' || c = '\n' || c = '\r'

/-- JS `String.prototype.trim` (over the whitespace characters that occur in
chat payloads). -/
def jsTrim (s : String) : String :=
  ⟨((s.data.dropWhile jsWhitespace).reverse.dropWhile jsWhitespace).reverse⟩

/-- JS `String.prototype.toLowerCase` (ASCII case map). -/
def jsToLower (s : String) : String :=
  ⟨s.data.map Char.toLower⟩

/-- Source `classifyChatTone`, with the local regex heuristic (`heuristicTone`) passed
in as a function and the whole OpenAI stage (API-key lookup, quota-cooldown
bookkeeping, the remote call and its `object?.tone` check) collapsed into its
observable outcome `aiOutcome` (`none` = no key / cooldown active / call failed
/ missing tone, each of which makes the source return the heuristic). -/
def classifyChatTone (heuristicTone : String → ChatToneResult)
    (aiOutcome : Option ChatToneResult)
    (message : String) (recentMessages : List String) : ChatToneResult :=
  let heuristic := heuristicTone message
  let trimmed := jsTrim message
  if trimmed = "" then heuristic
  else
    let normalized := jsToLower trimmed
    let recentMatches :=
      (recentMessages.filter (fun recent => decide (jsToLower (jsTrim recent) = normalized))).length
    if 2 ≤ recentMatches then
      { tone := .spam, confidence := 4/5, rationale := "Repeated identical message" }
    else if heuristic.tone = .spam ∧ 3/4 ≤ heuristic.confidence then heuristic
    else
      match aiOutcome with
      | none => heuristic
      | some result => result

/-! ### MetricsAggregator (ingestion worker) -/

def ONE_MINUTE : ℤ := 60 * 1000
def TEN_MINUTES : ℤ := 10 * ONE_MINUTE
def FIVE_MINUTES : ℤ := 5 * ONE_MINUTE
def SHORT_EMA_SECONDS : ℝ := 20
def LONG_EMA_SECONDS : ℝ := 180
def BASELINE_READY_SECONDS : ℝ := 90

structure BaselineAccumulator where
  short : ℝ
  long : ℝ
  variance : ℝ
  initialized : Bool
  elapsed : ℝ

def createBaselineAccumulator : BaselineAccumulator :=
  { short := 0, long := 0, variance := 0, initialized := false, elapsed := 0 }

open scoped Classical in
/-- Source `MetricsAggregator.updateBaseline`.  The JS guard also re-seeds when
`state.short` is not a finite float; over `ℝ` every value is finite, so that
disjunct is vacuous and dropped. -/
noncomputable def updateBaseline (state : BaselineAccumulator) (value dtSeconds : ℝ) :
    BaselineAccumulator :=
  if state.initialized = false ∨ dtSeconds = 0 then
    { short := value, long := value, variance := 0, initialized := true, elapsed := 0 }
  else
    let alphaShort := 1 - Real.exp (-dtSeconds / SHORT_EMA_SECONDS)
    let alphaLong := 1 - Real.exp (-dtSeconds / LONG_EMA_SECONDS)
    let deltaLong := value - state.long
    { short := state.short + alphaShort * (value - state.short)
      long := state.long + alphaLong * deltaLong
      variance := max 0 ((1 - alphaLong) * state.variance + alphaLong * deltaLong * deltaLong)
      initialized := true
      elapsed := min (state.elapsed + dtSeconds) (LONG_EMA_SECONDS * 12) }

/-- Snapshot projection `BaselineSnapshot`; `ready` is kept as the gating proposition. -/
structure BaselineSnapshot where
  short : Option ℝ
  long : Option ℝ
  std : Option ℝ
  samples : ℝ
  ready : Prop

/-- Source `MetricsAggregator.snapshotBaseline`.  The `Number.isFinite` checks on
`short`, `long`, `variance` and `elapsed` are vacuous over `ℝ` and dropped. -/
noncomputable def snapshotBaseline (state : BaselineAccumulator) : BaselineSnapshot :=
  if state.initialized = false then
    { short := none, long := none, std := none, samples := 0, ready := False }
  else
    { short := some state.short
      long := some state.long
      std := some (Real.sqrt (max state.variance 0))
      samples := state.elapsed
      ready := BASELINE_READY_SECONDS ≤ state.elapsed ∧ 0.1 < |state.long| }

structure MessageRecord where
  id : String
  timestamp : ℤ
  authorHash : String
  sentiment : ℝ

structure EventItem where
  id : String
  title : String
  detail : String
  timestamp : ℤ

structure AggregatedSnapshot where
  messageRate : ℕ
  trendPercent : ℝ
  sentiment : ℝ
  uniqueChatters : ℕ
  newcomers : ℕ
  event : Option EventItem
  baselineMessageRate : BaselineSnapshot
  baselineUniqueChatters : BaselineSnapshot
  baselineNewcomers : BaselineSnapshot

structure AggState where
  messages : List MessageRecord
  firstSeen : List (String × ℤ)
  seenAuthors : List String
  lastTrendRate : ℝ
  events : List EventItem
  lastEventAt : ℤ
  baselineMessageRate : BaselineAccumulator
  baselineUniqueChatters : BaselineAccumulator
  baselineNewcomers : BaselineAccumulator
  lastBaselineTimestamp : ℤ

def initialAggState : AggState :=
  { messages := []
    firstSeen := []
    seenAuthors := []
    lastTrendRate := 0
    events := []
    lastEventAt := 0
    baselineMessageRate := createBaselineAccumulator
    baselineUniqueChatters := createBaselineAccumulator
    baselineNewcomers := createBaselineAccumulator
    lastBaselineTimestamp := 0 }

/-- Source `MetricsAggregator.reset`: every field back to its construction value. -/
def AggState.reset (_ : AggState) : AggState := initialAggState

/-- Source `MetricsAggregator.prune`: evict messages older than ten minutes and delete
`firstSeen` entries older than ten minutes. -/
def AggState.prune (s : AggState) (now : ℤ) : AggState :=
  { s with
    messages := s.messages.filter (fun m => decide (now - m.timestamp ≤ TEN_MINUTES))
    firstSeen := s.firstSeen.filter (fun p => !decide (TEN_MINUTES < now - p.2)) }

open scoped Classical in
/-- Source `MetricsAggregator.ingest`.  Token/emote leaderboards are omitted (see the
module comment); everything else follows the source statement by statement. -/
noncomputable def AggState.ingest (s : AggState) (r : MessageRecord) :
    AggState × AggregatedSnapshot :=
  let previousRate := s.lastTrendRate
  let s₁ : AggState :=
    { s with
      messages := s.messages ++ [r]
      firstSeen :=
        if (mapFind s.firstSeen r.authorHash).isSome then s.firstSeen
        else s.firstSeen ++ [(r.authorHash, r.timestamp)]
      seenAuthors :=
        if s.seenAuthors.contains r.authorHash then s.seenAuthors
        else s.seenAuthors ++ [r.authorHash] }
  let s₂ := s₁.prune r.timestamp
  let recentMessages :=
    s₂.messages.filter (fun m => decide (r.timestamp - m.timestamp ≤ ONE_MINUTE))
  let messageRate := recentMessages.length
  let sentimentWindow :=
    s₂.messages.filter (fun m => decide (r.timestamp - m.timestamp ≤ FIVE_MINUTES))
  let averageSentiment :=
    (sentimentWindow.map MessageRecord.sentiment).sum /
      (if sentimentWindow.length = 0 then 1 else (sentimentWindow.length : ℝ))
  let normalizedSentiment := max (-1) (min 1 averageSentiment)
  let chatterWindow :=
    s₂.messages.filter (fun m => decide (r.timestamp - m.timestamp ≤ TEN_MINUTES))
  let uniqueChatters := ((chatterWindow.map MessageRecord.authorHash).dedup).length
  let newcomers :=
    ((s₂.firstSeen.map Prod.snd).filter (fun t => decide (r.timestamp - t ≤ TEN_MINUTES))).length
  let now := r.timestamp
  let dtSeconds : ℝ :=
    if s.lastBaselineTimestamp = 0 then 0
    else max 0.25 (((now - s.lastBaselineTimestamp : ℤ) : ℝ) / 1000)
  let bMessageRate := updateBaseline s.baselineMessageRate (messageRate : ℝ) dtSeconds
  let bUniqueChatters := updateBaseline s.baselineUniqueChatters (uniqueChatters : ℝ) dtSeconds
  let bNewcomers := updateBaseline s.baselineNewcomers (newcomers : ℝ) dtSeconds
  let snapMessageRate := snapshotBaseline bMessageRate
  let snapUniqueChatters := snapshotBaseline bUniqueChatters
  let snapNewcomers := snapshotBaseline bNewcomers
  let baselineRate := snapMessageRate.long.getD (messageRate : ℝ)
  let ratioToBaseline := if 0 < baselineRate then (messageRate : ℝ) / baselineRate else 0
  let eventThreshold : ℝ := if snapMessageRate.ready then 1.4 else 1.8
  let emitSpike : Prop :=
    0 < baselineRate ∧ eventThreshold ≤ ratioToBaseline ∧
      20 * 1000 < r.timestamp - s.lastEventAt
  let spikeEvent : EventItem :=
    { id := "spike-" ++ toString r.timestamp
      title := "Message spike detected"
      detail := "Velocity is " ++ toString (round (ratioToBaseline * 100)) ++ "% of baseline."
      timestamp := r.timestamp }
  let event : Option EventItem := if emitSpike then some spikeEvent else none
  let trendPercent : ℝ :=
    if previousRate = 0 then 0 else ((messageRate : ℝ) - previousRate) / previousRate * 100
  ({ s₂ with
      lastTrendRate := (messageRate : ℝ)
      events := if emitSpike then (spikeEvent :: s.events).take 20 else s.events
      lastEventAt := if emitSpike then r.timestamp else s.lastEventAt
      baselineMessageRate := bMessageRate
      baselineUniqueChatters := bUniqueChatters
      baselineNewcomers := bNewcomers
      lastBaselineTimestamp := now },
    { messageRate := messageRate
      trendPercent := trendPercent
      sentiment := normalizedSentiment
      uniqueChatters := uniqueChatters
      newcomers := newcomers
      event := event
      baselineMessageRate := snapMessageRate
      baselineUniqueChatters := snapUniqueChatters
      baselineNewcomers := snapNewcomers })

/-- Folding `ingest` over a record stream, collecting the snapshots. -/
noncomputable def runIngest (s : AggState) : List MessageRecord → List AggregatedSnapshot
  | [] => []
  | r :: rest => (s.ingest r).2 :: runIngest (s.ingest r).1 rest

/-- The session-boundary reset performed by the ingestion worker
(`aggregator.reset()` in the session start/end handlers).  The coach-summary
route's module-level `alertCooldowns` map lives in a separate server process
and no code path clears it at a session boundary, so it rides along unchanged. -/
def sessionReset (agg : AggState) (cooldowns : CooldownMap) : AggState × CooldownMap :=
  (agg.reset, cooldowns)

/-- Feeding a constant metric value through `updateBaseline` over a sequence of
time steps. -/
noncomputable def feedConstant (acc : BaselineAccumulator) (v : ℝ) :
    List ℝ → BaselineAccumulator
  | [] => acc
  | dt :: rest => feedConstant (updateBaseline acc v dt) v rest

/-- Spec's words (§4.1 step 5), for comparison with the source's `newcomers`:
`firstSeenAt` per author is the first-ever timestamp observed this session, and
`newcomers` counts authors whose first-ever timestamp falls within the trailing
ten minutes. -/
def specFirstSeenAt (history : List MessageRecord) (author : String) : Option ℤ :=
  ((history.filter (fun m => decide (m.authorHash = author))).map MessageRecord.timestamp).head?

/-- Spec's words (§4.1 step 5): the newcomer count derived from first-ever
timestamps over the full session history. -/
def specNewcomers (history : List MessageRecord) (now : ℤ) : ℕ :=
  (((history.map MessageRecord.authorHash).dedup).filter (fun a =>
    match specFirstSeenAt history a with
    | some t => decide (now - t ≤ TEN_MINUTES)
    | none => false)).length

/-! ## Theorems -/


theorem mapFind_mapSet {β : Type} (m : List (String × β)) (k : String) (v : β) :
    mapFind (mapSet m k v) k = some v := by
  induction m with
  | nil => simp [mapSet, mapFind]
  | cons hd tl ih =>
    by_cases hk : hd.1 = k
    · simp [mapSet, mapFind, hk]
    · simpa [mapSet, mapFind, hk] using ih

/-- C2: with a recorded previous emission `(t0, p0)` for a cooldown key, a new
candidate at time `t` with priority `p` is emitted iff the elapsed time reaches
the cooldown OR the new priority weight strictly exceeds the recorded one; in
particular a high-priority candidate always overrides a still-cooling-down low
or medium previous emission. -/
theorem shouldEmitAlert_gate (cooldowns : CooldownMap) (key : String)
    (t0 t cooldownMs : ℚ) (p0 p : AlertPriority)
    (h : mapFind cooldowns key = some ⟨t0, p0⟩) :
    ((shouldEmitAlert cooldowns key t p cooldownMs).1 = true ↔
      (cooldownMs ≤ t - t0 ∨ priorityWeight p0 < priorityWeight p))
    ∧ (p = .high → p0 = .low ∨ p0 = .medium →
        (shouldEmitAlert cooldowns key t p cooldownMs).1 = true) := by
  constructor
  · simp only [shouldEmitAlert, h]
    by_cases h1 : t - t0 < cooldownMs <;> by_cases h2 : priorityWeight p ≤ priorityWeight p0 <;>
      simp [h1, h2]
    · exact Or.inr (not_le.mp h2)
    · exact Or.inl (not_lt.mp h1)
    · exact Or.inl (not_lt.mp h1)
  · rintro rfl (rfl | rfl) <;> simp [shouldEmitAlert, h, priorityWeight]

/-- Witness for C2: a high candidate 1 second into a 30-second cooldown behind a
low emission is emitted. -/
theorem shouldEmitAlert_gate_witness :
    ((shouldEmitAlert [("spike", ⟨1000, .low⟩)] "spike" 2000 .high 30000).1 = true ↔
      ((30000 : ℚ) ≤ 2000 - 1000 ∨ priorityWeight .low < priorityWeight .high))
    ∧ (AlertPriority.high = .high → AlertPriority.low = .low ∨ AlertPriority.low = .medium →
        (shouldEmitAlert [("spike", ⟨1000, .low⟩)] "spike" 2000 .high 30000).1 = true) :=
  shouldEmitAlert_gate [("spike", ⟨1000, .low⟩)] "spike" 1000 2000 30000 .low .high (by decide)

/-- C4: when the detector cascade leaves no alert, the metrics are all zero and
the session-age gate (over 90 seconds, which idling for more than 90 seconds
within a session entails) is passed, an open calm gate emits exactly the single
low-priority calm alert; a second such evaluation within the calm alert's
60-second cooldown window emits no alert at all. -/
theorem calm_alert_emission (cooldowns : CooldownMap) (sessionAge : WithTop ℚ)
    (t t₂ : ℚ)
    (hfresh : mapFind cooldowns "calm" = none)
    (hage : (90 : WithTop ℚ) < sessionAge)
    (hwithin : t₂ - t < 60000) :
    (calmStage cooldowns [] 0 0 0 sessionAge t).1 = [buildCalmAlert t]
    ∧ (buildCalmAlert t).priority = .low
    ∧ (calmStage (calmStage cooldowns [] 0 0 0 sessionAge t).2 [] 0 0 0 sessionAge t₂).1
        = [] := by
  have hfirst : calmStage cooldowns [] 0 0 0 sessionAge t =
      ([buildCalmAlert t], mapSet cooldowns "calm" ⟨t, .low⟩) := by
    simp [calmStage, hage, shouldEmitAlert, hfresh]
  refine ⟨by rw [hfirst], rfl, ?_⟩
  rw [hfirst]
  simp [calmStage, hage, shouldEmitAlert, mapFind_mapSet, hwithin, priorityWeight]

/-- Witness for C4: a session 100 seconds old, an empty cooldown map, and a
second evaluation half a second later. -/
theorem calm_alert_emission_witness :
    mapFind ([] : CooldownMap) "calm" = none
    ∧ (90 : WithTop ℚ) < sessionAgeSeconds (some 1000) 101000
    ∧ (101500 : ℚ) - 101000 < 60000
    ∧ (calmStage [] [] 0 0 0 (sessionAgeSeconds (some 1000) 101000) 101000).1
        = [buildCalmAlert 101000]
    ∧ (calmStage (calmStage [] [] 0 0 0 (sessionAgeSeconds (some 1000) 101000) 101000).2
        [] 0 0 0 (sessionAgeSeconds (some 1000) 101000) 101500).1 = [] := by
  have hage : (90 : WithTop ℚ) < sessionAgeSeconds (some 1000) 101000 := by
    have h100 : sessionAgeSeconds (some 1000) 101000 = ((100 : ℚ) : WithTop ℚ) := by
      norm_num [sessionAgeSeconds]
    rw [h100]
    norm_cast
  have h := calm_alert_emission [] (sessionAgeSeconds (some 1000) 101000) 101000 101500
    rfl hage (by norm_num)
  exact ⟨rfl, hage, by norm_num, h.1, h.2.2⟩

/-- Counterexample to C6 as stated: at intensity `0` the code returns the base
cooldown unchanged (the `!intensity || intensity <= 0` guard), while the
claimed formula would give `base / 1.5 = 20000`. -/
theorem dynamicCooldown_zero_intensity :
    computeDynamicCooldown 30000 (some 0) = 30000
    ∧ max ((30000 : ℚ) / (1 + clamp 0 (1/2) 4)) (30000 * (3/10)) = 20000
    ∧ computeDynamicCooldown 30000 (some 0) ≠
        max ((30000 : ℚ) / (1 + clamp 0 (1/2) 4)) (30000 * (3/10)) := by
  have hc : clamp 0 (1/2) 4 = 1/2 := by norm_num [clamp]
  refine ⟨by simp [computeDynamicCooldown], ?_, ?_⟩
  · rw [hc]; norm_num
  · rw [hc]; simp [computeDynamicCooldown]; norm_num

/-- C6 (amended): the dynamic cooldown equals
`max (base / (1 + clamp i 0.5 4)) (0.3·base)` for strictly positive intensity
and equals the base for missing or non-positive intensity; over a non-negative
base it is non-increasing in intensity and never drops below 30% of the base. -/
theorem dynamicCooldown_formula (baseMs : ℚ) (hbase : 0 ≤ baseMs) :
    (∀ i : ℚ, 0 < i → computeDynamicCooldown baseMs (some i) =
        max (baseMs / (1 + clamp i (1/2) 4)) (baseMs * (3/10)))
    ∧ (∀ i : ℚ, i ≤ 0 → computeDynamicCooldown baseMs (some i) = baseMs)
    ∧ computeDynamicCooldown baseMs none = baseMs
    ∧ (∀ i j : ℚ, i ≤ j →
        computeDynamicCooldown baseMs (some j) ≤ computeDynamicCooldown baseMs (some i))
    ∧ (∀ i : Option ℚ, baseMs * (3/10) ≤ computeDynamicCooldown baseMs i) := by
  have hlo : ∀ i : ℚ, (1/2 : ℚ) ≤ clamp i (1/2) 4 :=
    fun i => le_min (le_max_right _ _) (by norm_num)
  have hpos : ∀ i : ℚ, (0 : ℚ) < 1 + clamp i (1/2) 4 := by
    intro i; have := hlo i; linarith
  have hformula : ∀ i : ℚ, 0 < i → computeDynamicCooldown baseMs (some i) =
      max (baseMs / (1 + clamp i (1/2) 4)) (baseMs * (3/10)) := by
    intro i hi
    simp [computeDynamicCooldown, not_le.mpr hi]
  have hone : ∀ i : ℚ, i ≤ 0 → computeDynamicCooldown baseMs (some i) = baseMs := by
    intro i hi
    simp [computeDynamicCooldown, hi]
  have hle_base : ∀ i : Option ℚ, computeDynamicCooldown baseMs i ≤ baseMs := by
    intro i
    match i with
    | none => simp [computeDynamicCooldown]
    | some i =>
      by_cases hi : i ≤ 0
      · simp [computeDynamicCooldown, hi]
      · rw [hformula i (not_le.mp hi)]
        refine max_le ?_ (by linarith)
        calc baseMs / (1 + clamp i (1/2) 4) ≤ baseMs / 1 :=
              div_le_div_of_nonneg_left hbase one_pos (by linarith [hlo i])
          _ = baseMs := div_one baseMs
  refine ⟨hformula, hone, by simp [computeDynamicCooldown], ?_, ?_⟩
  · intro i j hij
    by_cases hi : i ≤ 0
    · rw [hone i hi]; exact hle_base (some j)
    · have hi' := not_le.mp hi
      have hj' : 0 < j := lt_of_lt_of_le hi' hij
      rw [hformula i hi', hformula j hj']
      have hc : clamp i (1/2) 4 ≤ clamp j (1/2) 4 := by
        simp only [clamp]
        exact min_le_min (max_le_max hij (le_refl _)) (le_refl _)
      exact max_le_max (div_le_div_of_nonneg_left hbase (hpos i) (by linarith)) (le_refl _)
  · intro i
    match i with
    | none => simp only [computeDynamicCooldown]; linarith
    | some i =>
      by_cases hi : i ≤ 0
      · rw [hone i hi]; linarith
      · rw [hformula i (not_le.mp hi)]; exact le_max_right _ _

/-- Witness for C6 (amended) at base 30000 and intensities 2, 4 and 100. -/
theorem dynamicCooldown_formula_witness :
    computeDynamicCooldown 30000 (some 2) =
      max ((30000 : ℚ) / (1 + clamp 2 (1/2) 4)) (30000 * (3/10))
    ∧ computeDynamicCooldown 30000 (some 4) ≤ computeDynamicCooldown 30000 (some 2)
    ∧ 30000 * (3/10) ≤ computeDynamicCooldown 30000 (some 100) := by
  obtain ⟨h1, _, _, h4, h5⟩ := dynamicCooldown_formula 30000 (by norm_num)
  exact ⟨h1 2 (by norm_num), h4 2 4 (by norm_num), h5 (some 100)⟩

/-- C9: an empty message batch short-circuits the route to exactly one
low-priority calm alert with the all-zero tone summary, for every detector
pipeline, every cooldown-map state and every clock value, and records no
cooldown entry (the map comes back unchanged). -/
theorem empty_batch_calm
    (pipeline : List CoachMessage → CooldownMap → CoachResponse × CooldownMap)
    (cooldowns : CooldownMap) (now : ℚ) :
    coachSummaryPost pipeline cooldowns [] now =
      ({ alerts := [buildCalmAlert now], toneSummary := emptyToneSummary }, cooldowns)
    ∧ (buildCalmAlert now).priority = AlertPriority.low := by
  constructor
  · simp [coachSummaryPost]
  · rfl

/-- C10: a non-blank message whose trimmed, lowercased text matches at least two
entries of the recent-messages context classifies as spam with confidence 0.8,
for every heuristic classifier and every remote-classifier outcome. -/
theorem repeated_message_spam (heuristicTone : String → ChatToneResult)
    (aiOutcome : Option ChatToneResult) (message : String) (recentMessages : List String)
    (hne : ¬ jsTrim message = "")
    (hcount : 2 ≤ (recentMessages.filter
        (fun recent => decide (jsToLower (jsTrim recent) = jsToLower (jsTrim message)))).length) :
    classifyChatTone heuristicTone aiOutcome message recentMessages =
      { tone := .spam, confidence := 4/5, rationale := "Repeated identical message" } := by
  simp only [classifyChatTone, if_neg hne, if_pos hcount]

/-- Witness for C10 on the message `gg` repeated twice in context. -/
theorem repeated_message_spam_witness :
    ¬ (jsTrim "gg" = "")
    ∧ 2 ≤ (["gg", "GG "].filter
        (fun recent => decide (jsToLower (jsTrim recent) = jsToLower (jsTrim "gg")))).length
    ∧ classifyChatTone (fun _ => ⟨.unknown, 0, ""⟩) none "gg" ["gg", "GG "] =
        { tone := .spam, confidence := 4/5, rationale := "Repeated identical message" } :=
  ⟨by decide, by decide,
    repeated_message_spam (fun _ => ⟨.unknown, 0, ""⟩) none "gg" ["gg", "GG "]
      (by decide) (by decide)⟩

theorem updateBaseline_initialized (acc : BaselineAccumulator) (v dt : ℝ) :
    (updateBaseline acc v dt).initialized = true := by
  unfold updateBaseline
  split <;> rfl

theorem updateBaseline_not_seed (acc : BaselineAccumulator) (v dt : ℝ)
    (hinit : acc.initialized = true) (hdt : dt ≠ 0) :
    updateBaseline acc v dt =
      { short := acc.short + (1 - Real.exp (-dt / SHORT_EMA_SECONDS)) * (v - acc.short)
        long := acc.long + (1 - Real.exp (-dt / LONG_EMA_SECONDS)) * (v - acc.long)
        variance := max 0 ((1 - (1 - Real.exp (-dt / LONG_EMA_SECONDS))) * acc.variance
          + (1 - Real.exp (-dt / LONG_EMA_SECONDS)) * (v - acc.long) * (v - acc.long))
        initialized := true
        elapsed := min (acc.elapsed + dt) (LONG_EMA_SECONDS * 12) } := by
  unfold updateBaseline
  rw [if_neg]
  simp [hinit, hdt]

theorem snapshotBaseline_update_long (acc : BaselineAccumulator) (v dt : ℝ) :
    (snapshotBaseline (updateBaseline acc v dt)).long = some ((updateBaseline acc v dt).long) := by
  unfold snapshotBaseline
  rw [if_neg]
  simp [updateBaseline_initialized]

theorem snapshotBaseline_ready_iff (acc : BaselineAccumulator) (hinit : acc.initialized = true) :
    (snapshotBaseline acc).ready ↔
      (BASELINE_READY_SECONDS ≤ acc.elapsed ∧ 0.1 < |acc.long|) := by
  unfold snapshotBaseline
  rw [if_neg (by simp [hinit])]

theorem updateBaseline_long_const (acc : BaselineAccumulator) (v dt : ℝ)
    (h : acc.long = v) : (updateBaseline acc v dt).long = v := by
  unfold updateBaseline
  split
  · rfl
  · simp [h]

/-- C3 (amended): a ready snapshot does require at least 90 accumulated elapsed
seconds (together with a non-degenerate `|long| > 0.1`), and on an initialized
accumulator within its cap an update with positive `dt` never decreases
`elapsed`; readiness itself, however, is not monotone — see the
counterexample, where `|long|` decays below the 0.1 floor. -/
theorem baseline_ready_requires_elapsed (acc : BaselineAccumulator) (v dt : ℝ)
    (hinit : acc.initialized = true) (hdt : 0 < dt)
    (hcap : acc.elapsed ≤ LONG_EMA_SECONDS * 12) :
    ((snapshotBaseline acc).ready → BASELINE_READY_SECONDS ≤ acc.elapsed ∧ 0.1 < |acc.long|)
    ∧ acc.elapsed ≤ (updateBaseline acc v dt).elapsed := by
  constructor
  · exact (snapshotBaseline_ready_iff acc hinit).mp
  · rw [updateBaseline_not_seed acc v dt hinit (ne_of_gt hdt)]
    exact le_min (by linarith) hcap

/-- Witness for C3 (amended) on an accumulator at the readiness boundary. -/
theorem baseline_ready_requires_elapsed_witness :
    ((snapshotBaseline ⟨1, 1, 0, true, 90⟩).ready →
      BASELINE_READY_SECONDS ≤ (90 : ℝ) ∧ (0.1 : ℝ) < |(1 : ℝ)|)
    ∧ (90 : ℝ) ≤ (updateBaseline ⟨1, 1, 0, true, 90⟩ 1 1).elapsed :=
  baseline_ready_requires_elapsed ⟨1, 1, 0, true, 90⟩ 1 1 rfl (by norm_num)
    (by norm_num [LONG_EMA_SECONDS])

theorem exp_neg_large_le (x : ℝ) (hx : 5 ≤ x) : Real.exp (-x) ≤ 0.1 := by
  have h5 : (10 : ℝ) ≤ Real.exp 5 := by
    have hpow : Real.exp 5 = Real.exp 1 ^ (5 : ℕ) := by
      rw [← Real.exp_nat_mul]
      norm_num
    have h27 : (2.7 : ℝ) ^ (5 : ℕ) ≤ Real.exp 1 ^ (5 : ℕ) :=
      pow_le_pow_left₀ (by norm_num) (le_of_lt (lt_trans (by norm_num) Real.exp_one_gt_d9)) 5
    have : (10 : ℝ) ≤ (2.7 : ℝ) ^ (5 : ℕ) := by norm_num
    linarith [hpow ▸ le_trans this h27]
  have hle : Real.exp (-x) ≤ Real.exp (-5) := Real.exp_le_exp.mpr (by linarith)
  have hinv : (Real.exp 5)⁻¹ ≤ (10 : ℝ)⁻¹ := inv_anti₀ (by norm_num) h5
  calc Real.exp (-x) ≤ Real.exp (-5) := hle
    _ = (Real.exp 5)⁻¹ := Real.exp_neg 5
    _ ≤ (10 : ℝ)⁻¹ := hinv
    _ = 0.1 := by norm_num

/-- Counterexample to C3 as stated: readiness is not monotone without `reset`.
Seed an accumulator (as the aggregator's newcomers accumulator is seeded), feed
the constant 1 for 90 seconds — the snapshot is ready — then feed the value 0
over a 909-second step: `long` decays to `exp (-909/180) < 0.1`, and the next
snapshot is no longer ready, with no reset in between. -/
theorem baseline_ready_flips_false :
    (snapshotBaseline (updateBaseline (updateBaseline createBaselineAccumulator 1 0) 1 90)).ready
    ∧ ¬ (snapshotBaseline (updateBaseline (updateBaseline (updateBaseline
          createBaselineAccumulator 1 0) 1 90) 0 909)).ready := by
  have hs1 : updateBaseline createBaselineAccumulator 1 0 = ⟨1, 1, 0, true, 0⟩ := by
    unfold updateBaseline createBaselineAccumulator
    rw [if_pos (Or.inr rfl)]
  have hs2 : updateBaseline (updateBaseline createBaselineAccumulator 1 0) 1 90
      = ⟨1, 1, 0, true, 90⟩ := by
    rw [hs1, updateBaseline_not_seed _ _ _ rfl (by norm_num)]
    simp [SHORT_EMA_SECONDS, LONG_EMA_SECONDS, min_eq_left,
      show (90 : ℝ) ≤ 180 * 12 by norm_num]
  constructor
  · rw [hs2]
    exact (snapshotBaseline_ready_iff _ rfl).mpr (by norm_num [BASELINE_READY_SECONDS])
  · rw [hs2]
    have hlong : (updateBaseline ⟨1, 1, 0, true, 90⟩ 0 909).long
        = Real.exp (-(909 : ℝ) / 180) := by
      rw [updateBaseline_not_seed _ _ _ rfl (by norm_num)]
      simp [LONG_EMA_SECONDS]
    rw [snapshotBaseline_ready_iff _ (updateBaseline_initialized _ _ _)]
    rintro ⟨-, habs⟩
    rw [hlong, abs_of_pos (Real.exp_pos _)] at habs
    have hb := exp_neg_large_le (909 / 180) (by norm_num)
    have heq : (-909 : ℝ) / 180 = -(909 / 180) := by ring
    rw [heq] at habs
    linarith

theorem updateBaseline_long_sub (acc : BaselineAccumulator) (v dt : ℝ)
    (hinit : acc.initialized = true) (hdt : dt ≠ 0) :
    (updateBaseline acc v dt).long - v
      = Real.exp (-dt / LONG_EMA_SECONDS) * (acc.long - v) := by
  rw [updateBaseline_not_seed acc v dt hinit hdt]
  show acc.long + (1 - Real.exp (-dt / LONG_EMA_SECONDS)) * (v - acc.long) - v = _
  ring

theorem updateBaseline_short_sub (acc : BaselineAccumulator) (v dt : ℝ)
    (hinit : acc.initialized = true) (hdt : dt ≠ 0) :
    (updateBaseline acc v dt).short - v
      = Real.exp (-dt / SHORT_EMA_SECONDS) * (acc.short - v) := by
  rw [updateBaseline_not_seed acc v dt hinit hdt]
  show acc.short + (1 - Real.exp (-dt / SHORT_EMA_SECONDS)) * (v - acc.short) - v = _
  ring

theorem updateBaseline_variance_nonneg (acc : BaselineAccumulator) (v dt : ℝ) :
    0 ≤ (updateBaseline acc v dt).variance := by
  unfold updateBaseline
  split
  · exact le_refl 0
  · exact le_max_left 0 _

theorem updateBaseline_variance_le (acc : BaselineAccumulator) (v dt : ℝ)
    (hinit : acc.initialized = true) (hdt : 0 < dt) (hvar : 0 ≤ acc.variance) :
    (updateBaseline acc v dt).variance ≤ max acc.variance ((acc.long - v) ^ 2) := by
  rw [updateBaseline_not_seed acc v dt hinit (ne_of_gt hdt)]
  have he0 : 0 < Real.exp (-dt / LONG_EMA_SECONDS) := Real.exp_pos _
  have he1 : Real.exp (-dt / LONG_EMA_SECONDS) ≤ 1 := by
    rw [Real.exp_le_one_iff]
    have : (0 : ℝ) < LONG_EMA_SECONDS := by norm_num [LONG_EMA_SECONDS]
    exact le_of_lt (div_neg_of_neg_of_pos (neg_neg_of_pos hdt) this)
  set e := Real.exp (-dt / LONG_EMA_SECONDS) with he
  set M := max acc.variance ((acc.long - v) ^ 2) with hM
  have hd2 : (v - acc.long) * (v - acc.long) ≤ M := by
    have : (v - acc.long) * (v - acc.long) = (acc.long - v) ^ 2 := by ring
    rw [this]
    exact le_max_right _ _
  have hvM : acc.variance ≤ M := le_max_left _ _
  have hM0 : 0 ≤ M := le_trans hvar hvM
  show max 0 ((1 - (1 - e)) * acc.variance + (1 - e) * (v - acc.long) * (v - acc.long)) ≤ M
  refine max_le hM0 ?_
  have h1 : (1 - (1 - e)) * acc.variance ≤ e * M := by
    have : (1 - (1 - e)) * acc.variance = e * acc.variance := by ring
    rw [this]
    exact mul_le_mul_of_nonneg_left hvM (le_of_lt he0)
  have h2 : (1 - e) * (v - acc.long) * (v - acc.long) ≤ (1 - e) * M := by
    rw [mul_assoc]
    exact mul_le_mul_of_nonneg_left hd2 (by linarith)
  calc (1 - (1 - e)) * acc.variance + (1 - e) * (v - acc.long) * (v - acc.long)
      ≤ e * M + (1 - e) * M := add_le_add h1 h2
    _ = M := by ring

theorem feedConstant_props (v : ℝ) (dts : List ℝ) :
    ∀ acc : BaselineAccumulator, acc.initialized = true → (∀ dt ∈ dts, 0 < dt) →
      0 ≤ acc.variance →
      ((feedConstant acc v dts).long - v
          = Real.exp (-(dts.sum) / LONG_EMA_SECONDS) * (acc.long - v)
      ∧ (feedConstant acc v dts).short - v
          = Real.exp (-(dts.sum) / SHORT_EMA_SECONDS) * (acc.short - v)
      ∧ (feedConstant acc v dts).variance ≤ max acc.variance ((acc.long - v) ^ 2)) := by
  induction dts with
  | nil =>
    intro acc _ _ _
    refine ⟨?_, ?_, le_max_left _ _⟩ <;> simp [feedConstant]
  | cons dt rest ih =>
    intro acc hinit hpos hvar
    have hdt : 0 < dt := hpos dt (List.mem_cons_self dt rest)
    have hrest : ∀ d ∈ rest, 0 < d := fun d hd => hpos d (List.mem_cons_of_mem dt hd)
    have hstep := ih (updateBaseline acc v dt) (updateBaseline_initialized acc v dt) hrest
      (updateBaseline_variance_nonneg acc v dt)
    have he1 : Real.exp (-dt / LONG_EMA_SECONDS) ≤ 1 := by
      rw [Real.exp_le_one_iff]
      have : (0 : ℝ) < LONG_EMA_SECONDS := by norm_num [LONG_EMA_SECONDS]
      exact le_of_lt (div_neg_of_neg_of_pos (neg_neg_of_pos hdt) this)
    have he0 : 0 < Real.exp (-dt / LONG_EMA_SECONDS) := Real.exp_pos _
    refine ⟨?_, ?_, ?_⟩
    · show (feedConstant (updateBaseline acc v dt) v rest).long - v = _
      rw [hstep.1, updateBaseline_long_sub acc v dt hinit (ne_of_gt hdt), ← mul_assoc,
        ← Real.exp_add]
      congr 2
      show -rest.sum / LONG_EMA_SECONDS + -dt / LONG_EMA_SECONDS
          = -(dt + rest.sum) / LONG_EMA_SECONDS
      ring
    · show (feedConstant (updateBaseline acc v dt) v rest).short - v = _
      rw [hstep.2.1, updateBaseline_short_sub acc v dt hinit (ne_of_gt hdt), ← mul_assoc,
        ← Real.exp_add]
      congr 2
      show -rest.sum / SHORT_EMA_SECONDS + -dt / SHORT_EMA_SECONDS
          = -(dt + rest.sum) / SHORT_EMA_SECONDS
      ring
    · show (feedConstant (updateBaseline acc v dt) v rest).variance ≤ _
      refine le_trans hstep.2.2 (max_le ?_ ?_)
      · exact le_trans (updateBaseline_variance_le acc v dt hinit hdt hvar) (le_refl _)
      · have hsq : ((updateBaseline acc v dt).long - v) ^ 2
            = (Real.exp (-dt / LONG_EMA_SECONDS)) ^ 2 * (acc.long - v) ^ 2 := by
          rw [updateBaseline_long_sub acc v dt hinit (ne_of_gt hdt)]
          ring
        rw [hsq]
        refine le_trans ?_ (le_max_right acc.variance ((acc.long - v) ^ 2))
        have : (Real.exp (-dt / LONG_EMA_SECONDS)) ^ 2 ≤ 1 := by
          rw [pow_two]
          exact mul_le_one₀ he1 (le_of_lt he0) he1
        nlinarith [sq_nonneg (acc.long - v)]

theorem exp_neg_le_inv_hundred (x : ℝ) (hx : 10 ≤ x) : Real.exp (-x) ≤ 1 / 100 := by
  have hpow : Real.exp 10 = Real.exp 1 ^ (10 : ℕ) := by
    rw [← Real.exp_nat_mul]
    norm_num
  have h100 : (100 : ℝ) ≤ Real.exp 10 := by
    rw [hpow]
    calc (100 : ℝ) ≤ (2.7 : ℝ) ^ (10 : ℕ) := by norm_num
      _ ≤ Real.exp 1 ^ (10 : ℕ) :=
        pow_le_pow_left₀ (by norm_num) (le_of_lt (lt_trans (by norm_num) Real.exp_one_gt_d9)) 10
  have hle : Real.exp (-x) ≤ Real.exp (-10) := Real.exp_le_exp.mpr (by linarith)
  have hinv : (Real.exp 10)⁻¹ ≤ (100 : ℝ)⁻¹ := inv_anti₀ (by norm_num) h100
  calc Real.exp (-x) ≤ Real.exp (-10) := hle
    _ = (Real.exp 10)⁻¹ := Real.exp_neg 10
    _ ≤ (100 : ℝ)⁻¹ := hinv
    _ = 1 / 100 := by norm_num

/-- C7 (amended): feeding an initialized accumulator a constant `v` over
positive steps totalling at least `10·τlong` seconds leaves `long` and `short`
within 1% of their initial offsets from `v` (the offsets decay by exactly
`exp (-T/τ)`), and the variance never exceeds the larger of its initial value
and the square of the initial long offset.  The stated claim — within 1% of
`v` itself for every starting state, with variance near 0 — fails; see the
counterexample. -/
theorem ema_convergence (acc : BaselineAccumulator) (v : ℝ) (dts : List ℝ)
    (hinit : acc.initialized = true) (hpos : ∀ dt ∈ dts, 0 < dt)
    (hvar : 0 ≤ acc.variance) (hsum : 10 * LONG_EMA_SECONDS ≤ dts.sum) :
    |(feedConstant acc v dts).long - v| ≤ (1 / 100) * |acc.long - v|
    ∧ |(feedConstant acc v dts).short - v| ≤ (1 / 100) * |acc.short - v|
    ∧ (feedConstant acc v dts).variance ≤ max acc.variance ((acc.long - v) ^ 2) := by
  obtain ⟨hlong, hshort, hvarf⟩ := feedConstant_props v dts acc hinit hpos hvar
  have hsum' : (1800 : ℝ) ≤ dts.sum := by
    calc (1800 : ℝ) = 10 * 180 := by norm_num
      _ ≤ dts.sum := by
        have : LONG_EMA_SECONDS = (180 : ℝ) := rfl
        linarith [this ▸ hsum]
  refine ⟨?_, ?_, hvarf⟩
  · rw [hlong, abs_mul, Real.abs_exp]
    have : Real.exp (-dts.sum / LONG_EMA_SECONDS) ≤ 1 / 100 := by
      have : -dts.sum / LONG_EMA_SECONDS = -(dts.sum / 180) := by
        show _ / LONG_EMA_SECONDS = _
        norm_num [LONG_EMA_SECONDS]
        ring
      rw [this]
      exact exp_neg_le_inv_hundred _ (by linarith)
    exact mul_le_mul_of_nonneg_right this (abs_nonneg _)
  · rw [hshort, abs_mul, Real.abs_exp]
    have : Real.exp (-dts.sum / SHORT_EMA_SECONDS) ≤ 1 / 100 := by
      have : -dts.sum / SHORT_EMA_SECONDS = -(dts.sum / 20) := by
        show _ / SHORT_EMA_SECONDS = _
        norm_num [SHORT_EMA_SECONDS]
        ring
      rw [this]
      exact exp_neg_le_inv_hundred _ (by linarith)
    exact mul_le_mul_of_nonneg_right this (abs_nonneg _)

/-- Witness for C7 (amended): one 1800-second step at the constant 3. -/
theorem ema_convergence_witness :
    |(feedConstant ⟨3, 3, 0, true, 0⟩ 3 [1800]).long - 3| ≤ (1 / 100) * |(3 : ℝ) - 3|
    ∧ |(feedConstant ⟨3, 3, 0, true, 0⟩ 3 [1800]).short - 3| ≤ (1 / 100) * |(3 : ℝ) - 3|
    ∧ (feedConstant ⟨3, 3, 0, true, 0⟩ 3 [1800]).variance ≤ max 0 (((3 : ℝ) - 3) ^ 2) :=
  ema_convergence ⟨3, 3, 0, true, 0⟩ 3 [1800] rfl
    (by intro dt hdt; rw [List.mem_singleton] at hdt; rw [hdt]; norm_num)
    (le_refl 0) (by norm_num [LONG_EMA_SECONDS])

/-- Counterexample to C7 as stated: from the initialized starting state with
`long = 10^6`, a constant feed of `v = 1` for 1800 seconds leaves `long` about
45 away from `v` — not within 1% of `v` — and leaves the variance at least 1
rather than near 0. -/
theorem ema_one_percent_fails :
    ¬ (|(feedConstant ⟨1000000, 1000000, 0, true, 0⟩ 1 [1800]).long - 1|
        ≤ (1 / 100) * |(1 : ℝ)|)
    ∧ (1 : ℝ) ≤ (feedConstant ⟨1000000, 1000000, 0, true, 0⟩ 1 [1800]).variance := by
  have hacc : (⟨1000000, 1000000, 0, true, 0⟩ : BaselineAccumulator).initialized = true := rfl
  have hfeed : feedConstant (⟨1000000, 1000000, 0, true, 0⟩ : BaselineAccumulator) 1 [1800]
      = updateBaseline ⟨1000000, 1000000, 0, true, 0⟩ 1 1800 := rfl
  have harg : -(1800 : ℝ) / LONG_EMA_SECONDS = -10 := by
    norm_num [LONG_EMA_SECONDS]
  have hexp10 : Real.exp 10 ≤ 22100 := by
    have hpow : Real.exp 10 = Real.exp 1 ^ (10 : ℕ) := by
      rw [← Real.exp_nat_mul]
      norm_num
    rw [hpow]
    calc Real.exp 1 ^ (10 : ℕ) ≤ (2.7182818286 : ℝ) ^ (10 : ℕ) :=
          pow_le_pow_left₀ (le_of_lt (Real.exp_pos 1)) (le_of_lt Real.exp_one_lt_d9) 10
      _ ≤ 22100 := by norm_num
  have hlow : (1 : ℝ) / 22100 ≤ Real.exp (-10) := by
    rw [Real.exp_neg, one_div]
    exact inv_anti₀ (Real.exp_pos 10) hexp10
  have hsub := updateBaseline_long_sub ⟨1000000, 1000000, 0, true, 0⟩ 1 1800 hacc (by norm_num)
  rw [harg] at hsub
  constructor
  · rw [hfeed]
    push_neg
    rw [show ((⟨1000000, 1000000, 0, true, 0⟩ : BaselineAccumulator).long - 1 : ℝ)
        = 999999 from by norm_num] at hsub
    rw [hsub]
    have habs : |Real.exp (-10) * (999999 : ℝ)| = Real.exp (-10) * 999999 :=
      abs_of_pos (by positivity)
    rw [habs]
    have h45 : (45 : ℝ) ≤ Real.exp (-10) * 999999 := by nlinarith [hlow]
    have h1 : (1 / 100 : ℝ) * |(1 : ℝ)| = 1 / 100 := by norm_num
    rw [h1]
    linarith
  · rw [hfeed, updateBaseline_not_seed _ _ _ hacc (by norm_num)]
    show (1 : ℝ) ≤ max 0 _
    have hexp : Real.exp (-(1800 : ℝ) / LONG_EMA_SECONDS) ≤ 1 / 100 := by
      rw [harg]
      exact exp_neg_le_inv_hundred 10 (le_refl 10)
    have hexp0 : 0 < Real.exp (-(1800 : ℝ) / LONG_EMA_SECONDS) := Real.exp_pos _
    refine le_trans ?_ (le_max_right 0 _)
    nlinarith

theorem mapFind_filter (l : List (String × ℤ)) (a : String) (t : ℤ) (p : String × ℤ → Bool)
    (h : mapFind l a = some t) (hp : p (a, t) = true) :
    mapFind (l.filter p) a = some t := by
  induction l with
  | nil => simp [mapFind] at h
  | cons hd tl ih =>
    obtain ⟨k, v⟩ := hd
    by_cases hk : k = a
    · subst hk
      have hv : v = t := by simpa [mapFind] using h
      subst hv
      rw [List.filter_cons, if_pos hp]
      simp [mapFind]
    · have h' : mapFind tl a = some t := by simpa [mapFind, hk] using h
      rw [List.filter_cons]
      by_cases hpk : p (k, v) = true
      · rw [if_pos hpk]
        simpa [mapFind, hk] using ih h'
      · rw [if_neg hpk]
        exact ih h'

theorem length_filter_window (l : List (String × ℤ)) (now : ℤ) :
    (((l.filter (fun q => !decide (TEN_MINUTES < now - q.2))).map Prod.snd).filter
        (fun t => decide (now - t ≤ TEN_MINUTES))).length
      = (l.filter (fun q => !decide (TEN_MINUTES < now - q.2))).length := by
  rw [List.filter_eq_self.mpr, List.length_map]
  intro t ht
  rw [List.mem_map] at ht
  obtain ⟨q, hq, rfl⟩ := ht
  have := List.of_mem_filter hq
  simpa [not_lt] using this

/-- C5 (amended): at every ingest the snapshot's `newcomers` equals the size of
the post-prune `firstSeen` map — authors whose recorded first-seen timestamp,
which is the first timestamp since that author's entry was last pruned rather
than the first-ever of the session, lies within the trailing ten minutes — and
an author whose entry is still live keeps their recorded timestamp and is not
re-recorded.  The first-ever reading of the claim fails once an entry is
pruned; see the counterexample. -/
theorem newcomers_eq_firstSeen (s : AggState) (r : MessageRecord) (t : ℤ)
    (hmem : mapFind s.firstSeen r.authorHash = some t)
    (hfresh : r.timestamp - t ≤ TEN_MINUTES) :
    ((s.ingest r).2).newcomers = ((s.ingest r).1).firstSeen.length
    ∧ mapFind ((s.ingest r).1).firstSeen r.authorHash = some t := by
  constructor
  · show (((AggState.prune _ r.timestamp).firstSeen.map Prod.snd).filter _).length = _
    simp only [AggState.prune]
    exact length_filter_window _ r.timestamp
  · show mapFind ((AggState.prune _ r.timestamp).firstSeen) r.authorHash = some t
    simp only [AggState.prune]
    have hfs : (if (mapFind s.firstSeen r.authorHash).isSome then s.firstSeen
        else s.firstSeen ++ [(r.authorHash, r.timestamp)]) = s.firstSeen := by
      rw [if_pos]
      rw [hmem]
      rfl
    rw [hfs]
    exact mapFind_filter s.firstSeen r.authorHash t _ hmem (by simpa [not_lt] using hfresh)

/-- Witness for C5 (amended): an author recorded at 500 ms ingesting again at
1000 ms keeps the recorded entry and is counted through the map's size. -/
theorem newcomers_eq_firstSeen_witness :
    mapFind ({ initialAggState with firstSeen := [("a", 500)] } : AggState).firstSeen "a"
        = some 500
    ∧ ((1000 : ℤ) - 500 ≤ TEN_MINUTES)
    ∧ ((({ initialAggState with firstSeen := [("a", 500)] } : AggState).ingest
          ⟨"1", 1000, "a", 0⟩).2).newcomers
        = ((({ initialAggState with firstSeen := [("a", 500)] } : AggState).ingest
          ⟨"1", 1000, "a", 0⟩).1).firstSeen.length
    ∧ mapFind ((({ initialAggState with firstSeen := [("a", 500)] } : AggState).ingest
          ⟨"1", 1000, "a", 0⟩).1).firstSeen "a" = some 500 := by
  have h := newcomers_eq_firstSeen { initialAggState with firstSeen := [("a", 500)] }
    ⟨"1", 1000, "a", 0⟩ 500 (by rfl) (by decide)
  exact ⟨rfl, by decide, h.1, h.2⟩

/-- Counterexample to C5 as stated: author `a` chats at 1 s, author `b` at
700 s (which prunes `a`'s `firstSeen` entry), and `a` chats again at 750 s.
The code then counts `a` as a newcomer again (`newcomers = 2`) and records
`firstSeenAt = 750000`, while the spec's first-ever reading counts only `b`
(`newcomers = 1`) with `a`'s first-ever timestamp 1000. -/
theorem newcomers_not_first_ever :
    ((((initialAggState.ingest ⟨"1", 1000, "a", 0⟩).1.ingest
        ⟨"2", 700000, "b", 0⟩).1.ingest ⟨"3", 750000, "a", 0⟩).2).newcomers = 2
    ∧ specNewcomers [⟨"1", 1000, "a", 0⟩, ⟨"2", 700000, "b", 0⟩, ⟨"3", 750000, "a", 0⟩]
        750000 = 1
    ∧ mapFind ((((initialAggState.ingest ⟨"1", 1000, "a", 0⟩).1.ingest
        ⟨"2", 700000, "b", 0⟩).1.ingest ⟨"3", 750000, "a", 0⟩).1).firstSeen "a"
        = some 750000
    ∧ specFirstSeenAt [⟨"1", 1000, "a", 0⟩, ⟨"2", 700000, "b", 0⟩, ⟨"3", 750000, "a", 0⟩] "a"
        = some 1000 := by
  refine ⟨by rfl, by rfl, by rfl, by rfl⟩

theorem isSome_ite (P : Prop) [Decidable P] (x : EventItem) :
    (if P then some x else none).isSome = true ↔ P := by
  split
  · simpa
  · simpa

theorem head?_take_cons (a : EventItem) (l : List EventItem) :
    ((a :: l).take 20).head? = some a := rfl

theorem length_take_le (a : EventItem) (l : List EventItem) :
    ((a :: l).take 20).length ≤ 20 := by
  rw [List.length_take]
  exact min_le_left _ _

open scoped Classical in
/-- C1: when the updated message-rate baseline's `long` is a positive `l`, an
ingest emits a spike event iff the rate-to-`l` ratio reaches the threshold
(1.4 with a ready baseline, 1.8 otherwise) and more than 20 seconds have
passed since the last emission; an emission is prepended to the event history,
keeps it capped at 20 entries and re-arms the timer, so a second ingest less
than 20 seconds later emits nothing. -/
theorem spike_event_gate (s : AggState) (r : MessageRecord) (l : ℝ)
    (hl : ((s.ingest r).2).baselineMessageRate.long = some l) (hpos : 0 < l) :
    ((s.ingest r).2.event.isSome = true ↔
      ((if (s.ingest r).2.baselineMessageRate.ready then (1.4 : ℝ) else 1.8)
          ≤ ((s.ingest r).2.messageRate : ℝ) / l
        ∧ 20 * 1000 < r.timestamp - s.lastEventAt))
    ∧ (∀ e, (s.ingest r).2.event = some e →
        (s.ingest r).1.events.head? = some e
        ∧ (s.ingest r).1.lastEventAt = r.timestamp
        ∧ (s.ingest r).1.events.length ≤ 20)
    ∧ (∀ r₂ : MessageRecord, (s.ingest r).2.event.isSome = true →
        r₂.timestamp - r.timestamp < 20 * 1000 →
        (((s.ingest r).1).ingest r₂).2.event = none) := by
  dsimp only [AggState.ingest] at hl ⊢
  rw [snapshotBaseline_update_long] at hl
  have hlong := Option.some.inj hl
  rw [snapshotBaseline_update_long, Option.getD_some, hlong, if_pos hpos]
  refine ⟨?_, ?_, ?_⟩
  · rw [isSome_ite]
    exact and_iff_right hpos
  · intro e he
    rcases ite_eq_iff.mp he with ⟨hC, hsome⟩ | ⟨-, hnone⟩
    · obtain rfl := Option.some.inj hsome
      rw [if_pos hC, if_pos hC]
      exact ⟨head?_take_cons _ _, rfl, length_take_le _ _⟩
    · exact absurd hnone.symm (by simp)
  · intro r₂ hsome hlt
    rw [isSome_ite] at hsome
    rw [ite_eq_right_iff]
    rintro ⟨-, -, h3⟩
    rw [if_pos hsome] at h3
    exact absurd h3 (by omega)

open scoped Classical in
/-- Witness for C1: a seeded message-rate accumulator at `long = 1` and a
single message one second later. -/
theorem spike_event_gate_witness :
    ((({ initialAggState with
          baselineMessageRate := ⟨1, 1, 0, true, 90⟩
          lastBaselineTimestamp := 1000 } : AggState).ingest
        ⟨"m", 2000, "a", 0⟩).2).baselineMessageRate.long = some 1
    ∧ ((0 : ℝ) < 1)
    ∧ (((({ initialAggState with
            baselineMessageRate := ⟨1, 1, 0, true, 90⟩
            lastBaselineTimestamp := 1000 } : AggState).ingest
          ⟨"m", 2000, "a", 0⟩).2.event.isSome = true ↔
        ((if (({ initialAggState with
                baselineMessageRate := ⟨1, 1, 0, true, 90⟩
                lastBaselineTimestamp := 1000 } : AggState).ingest
              ⟨"m", 2000, "a", 0⟩).2.baselineMessageRate.ready then (1.4 : ℝ) else 1.8)
            ≤ ((({ initialAggState with
                  baselineMessageRate := ⟨1, 1, 0, true, 90⟩
                  lastBaselineTimestamp := 1000 } : AggState).ingest
                ⟨"m", 2000, "a", 0⟩).2.messageRate : ℝ) / 1
          ∧ 20 * 1000 < (⟨"m", 2000, "a", 0⟩ : MessageRecord).timestamp
              - ({ initialAggState with
                    baselineMessageRate := ⟨1, 1, 0, true, 90⟩
                    lastBaselineTimestamp := 1000 } : AggState).lastEventAt))
      ∧ (∀ e, (({ initialAggState with
              baselineMessageRate := ⟨1, 1, 0, true, 90⟩
              lastBaselineTimestamp := 1000 } : AggState).ingest
            ⟨"m", 2000, "a", 0⟩).2.event = some e →
          (({ initialAggState with
              baselineMessageRate := ⟨1, 1, 0, true, 90⟩
              lastBaselineTimestamp := 1000 } : AggState).ingest
            ⟨"m", 2000, "a", 0⟩).1.events.head? = some e
          ∧ (({ initialAggState with
                baselineMessageRate := ⟨1, 1, 0, true, 90⟩
                lastBaselineTimestamp := 1000 } : AggState).ingest
              ⟨"m", 2000, "a", 0⟩).1.lastEventAt
              = (⟨"m", 2000, "a", 0⟩ : MessageRecord).timestamp
          ∧ (({ initialAggState with
                baselineMessageRate := ⟨1, 1, 0, true, 90⟩
                lastBaselineTimestamp := 1000 } : AggState).ingest
              ⟨"m", 2000, "a", 0⟩).1.events.length ≤ 20)
      ∧ (∀ r₂ : MessageRecord,
          (({ initialAggState with
              baselineMessageRate := ⟨1, 1, 0, true, 90⟩
              lastBaselineTimestamp := 1000 } : AggState).ingest
            ⟨"m", 2000, "a", 0⟩).2.event.isSome = true →
          r₂.timestamp - (⟨"m", 2000, "a", 0⟩ : MessageRecord).timestamp < 20 * 1000 →
          ((({ initialAggState with
                baselineMessageRate := ⟨1, 1, 0, true, 90⟩
                lastBaselineTimestamp := 1000 } : AggState).ingest
              ⟨"m", 2000, "a", 0⟩).1.ingest r₂).2.event = none)) := by
  have hl : ((({ initialAggState with
          baselineMessageRate := ⟨1, 1, 0, true, 90⟩
          lastBaselineTimestamp := 1000 } : AggState).ingest
        ⟨"m", 2000, "a", 0⟩).2).baselineMessageRate.long = some 1 := by
    dsimp only [AggState.ingest]
    rw [snapshotBaseline_update_long, updateBaseline_long_const]
    · show some ((1 : ℕ) : ℝ) = some (1 : ℝ)
      norm_num
    · show (1 : ℝ) = ((1 : ℕ) : ℝ)
      norm_num
  exact ⟨hl, one_pos,
    spike_event_gate { initialAggState with
        baselineMessageRate := ⟨1, 1, 0, true, 90⟩
        lastBaselineTimestamp := 1000 } ⟨"m", 2000, "a", 0⟩ 1 hl one_pos⟩


/-- Counterexample to C8 as stated: the session-boundary reset does not clear
the alert engine's cooldown entries — an existing `calm` cooldown entry
survives `reset()` untouched. -/
theorem reset_keeps_alert_cooldowns :
    (sessionReset initialAggState [("calm", ⟨1000, .low⟩)]).2 ≠ ([] : CooldownMap)
    ∧ mapFind (sessionReset initialAggState [("calm", ⟨1000, .low⟩)]).2 "calm" =
        some ⟨1000, .low⟩ := by
  constructor
  · simp [sessionReset]
  · simp [sessionReset, mapFind]

/-- C8 (amended): `reset()` returns every aggregator field — message buffer,
first-seen records, baseline accumulators, spike history, trend and baseline
timestamps — to the freshly-constructed state, so the aggregator's subsequent
behaviour on any record stream is identical to a fresh session's; the
coach-summary route's `alertCooldowns` map, however, is not cleared by the
reset and rides along unchanged. -/
theorem reset_clears_aggregator (agg : AggState) (cooldowns : CooldownMap) :
    (sessionReset agg cooldowns).1 = initialAggState
    ∧ (∀ records : List MessageRecord,
        runIngest (sessionReset agg cooldowns).1 records = runIngest initialAggState records)
    ∧ (sessionReset agg cooldowns).2 = cooldowns :=
  ⟨rfl, fun _ => rfl, rfl⟩

end StreamerPulse
